import Mathlib

/-!
Verification development for the stock trend analyzer
(src/stock_analyzer.py of daily_stock_analysis).

The Python module is shallowly embedded here:

* Prices, volumes and all indicator values are modelled as rationals.
  The Python code works with IEEE floats; every spot where IEEE special
  values (NaN, division by zero) influence control flow is translated
  explicitly, with a comment citing the pandas/numpy behaviour:
  a rolling column that pandas leaves as NaN is an Option that is none,
  and comparisons against NaN (which are False in Python) are encoded
  by matching on the Option.
* pandas column computations become functions from the list of bar
  values and an index to an Option of a rational.
* The analyzer methods that mutate the result dataclass in place become
  functions from the result record to an updated result record, applied
  in the same order as in the source.

The 20-bar rolling standard deviation used by the Bollinger calculator
is a real square root and is therefore not rational; the band columns
are defined over the reals (bollStd, bollUpper, bollLower below), and
the full analyzer pipeline is parameterised by the std column so that
the rest of the development stays computable.
-/

namespace StockAnalyzer

/-- TrendStatus enum from the source (seven trend states). -/
inductive TrendStatus where
  | STRONG_BULL
  | BULL
  | WEAK_BULL
  | CONSOLIDATION
  | WEAK_BEAR
  | BEAR
  | STRONG_BEAR
  deriving DecidableEq, Repr

/-- VolumeStatus enum from the source (five volume regimes). -/
inductive VolumeStatus where
  | HEAVY_VOLUME_UP
  | HEAVY_VOLUME_DOWN
  | SHRINK_VOLUME_UP
  | SHRINK_VOLUME_DOWN
  | NORMAL
  deriving DecidableEq, Repr

/-- BuySignal enum from the source (six final actions). -/
inductive BuySignal where
  | STRONG_BUY
  | BUY
  | HOLD
  | WAIT
  | SELL
  | STRONG_SELL
  deriving DecidableEq, Repr

/-- MACDStatus enum from the source (seven MACD states, no neutral variant). -/
inductive MACDStatus where
  | GOLDEN_CROSS_ZERO
  | GOLDEN_CROSS
  | BULLISH
  | CROSSING_UP
  | CROSSING_DOWN
  | BEARISH
  | DEATH_CROSS
  deriving DecidableEq, Repr

/-- RSIStatus enum from the source (five RSI zones). -/
inductive RSIStatus where
  | OVERBOUGHT
  | STRONG_BUY
  | NEUTRAL
  | WEAK
  | OVERSOLD
  deriving DecidableEq, Repr

/-- Chinese display value of a TrendStatus, as in the Python Enum. -/
def TrendStatus.value : TrendStatus → String
  | .STRONG_BULL => "强势多头"
  | .BULL => "多头排列"
  | .WEAK_BULL => "弱势多头"
  | .CONSOLIDATION => "盘整"
  | .WEAK_BEAR => "弱势空头"
  | .BEAR => "空头排列"
  | .STRONG_BEAR => "强势空头"

/-- Chinese display value of a VolumeStatus, as in the Python Enum. -/
def VolumeStatus.value : VolumeStatus → String
  | .HEAVY_VOLUME_UP => "放量上涨"
  | .HEAVY_VOLUME_DOWN => "放量下跌"
  | .SHRINK_VOLUME_UP => "缩量上涨"
  | .SHRINK_VOLUME_DOWN => "缩量回调"
  | .NORMAL => "量能正常"

/-- Chinese display value of a BuySignal, as in the Python Enum. -/
def BuySignal.value : BuySignal → String
  | .STRONG_BUY => "强烈买入"
  | .BUY => "买入"
  | .HOLD => "持有"
  | .WAIT => "观望"
  | .SELL => "卖出"
  | .STRONG_SELL => "强烈卖出"

/-- Chinese display value of a MACDStatus, as in the Python Enum. -/
def MACDStatus.value : MACDStatus → String
  | .GOLDEN_CROSS_ZERO => "零轴上金叉"
  | .GOLDEN_CROSS => "金叉"
  | .BULLISH => "多头"
  | .CROSSING_UP => "上穿零轴"
  | .CROSSING_DOWN => "下穿零轴"
  | .BEARISH => "空头"
  | .DEATH_CROSS => "死叉"

/-- Chinese display value of an RSIStatus, as in the Python Enum. -/
def RSIStatus.value : RSIStatus → String
  | .OVERBOUGHT => "超买"
  | .STRONG_BUY => "强势买入"
  | .NEUTRAL => "中性"
  | .WEAK => "弱势"
  | .OVERSOLD => "超卖"

/-- One OHLCV bar of the input DataFrame.  The field openP mirrors the
Python column named open (a Lean keyword). -/
structure Bar where
  date : ℤ
  openP : ℚ
  high : ℚ
  low : ℚ
  close : ℚ
  volume : ℚ
  deriving DecidableEq, Repr

/-- Rolling window of width w ending at index i: the list of the last w
values up to and including index i.  pandas rolling(window=w) leaves NaN
(here: none) while fewer than w observations exist or the index is out
of range. -/
def rollingWindow (xs : List ℚ) (w i : ℕ) : Option (List ℚ) :=
  if w ≤ i + 1 ∧ i < xs.length then some ((xs.take (i + 1)).drop (i + 1 - w))
  else none

/-- Mean of a list of rationals (sum divided by length; the empty list
yields 0 by the rational convention x / 0 = 0). -/
def listMean (l : List ℚ) : ℚ := l.sum / l.length

/-- pandas rolling(w).mean() at index i. -/
def rollingMean (xs : List ℚ) (w i : ℕ) : Option ℚ :=
  (rollingWindow xs w i).map listMean

/-- Positive part of the close-to-close difference at index i,
translating gain = delta.where(delta > 0, 0) together with diff(): the
first difference is NaN in pandas, and NaN > 0 is False, so index 0
contributes 0. -/
def gainAt (closes : List ℚ) (i : ℕ) : ℚ :=
  if i = 0 then 0
  else if 0 < closes.getD i 0 - closes.getD (i - 1) 0 then
    closes.getD i 0 - closes.getD (i - 1) 0
  else 0

/-- Negative part of the close-to-close difference at index i,
translating loss = -delta.where(delta < 0, 0) with the same NaN
convention at index 0. -/
def lossAt (closes : List ℚ) (i : ℕ) : ℚ :=
  if i = 0 then 0
  else if closes.getD i 0 - closes.getD (i - 1) 0 < 0 then
    -(closes.getD i 0 - closes.getD (i - 1) 0)
  else 0

/-- The gain column as a list, index-aligned with closes. -/
def gains (closes : List ℚ) : List ℚ :=
  (List.range closes.length).map (gainAt closes)

/-- The loss column as a list, index-aligned with closes. -/
def losses (closes : List ℚ) : List ℚ :=
  (List.range closes.length).map (lossAt closes)

/-- RSI column of _calculate_rsi at a given period and index.  The
translation of the IEEE arithmetic of rs = avg_gain / avg_loss and
rsi = 100 - 100 / (1 + rs) under np.errstate(ignore):

* avg_loss > 0: the formula evaluates normally;
* avg_loss = 0, avg_gain > 0: rs = inf, so rsi = 100 - 100 / inf = 100;
* avg_loss = 0, avg_gain = 0: rs = NaN, so rsi is NaN, and
  rsi.fillna(50) turns it into 50;
* insufficient history (rolling mean NaN): rsi is NaN, filled with 50.
-/
def rsiCol (closes : List ℚ) (period i : ℕ) : ℚ :=
  match rollingMean (gains closes) period i, rollingMean (losses closes) period i with
  | some g, some l =>
      if l = 0 then (if g = 0 then 50 else 100)
      else 100 - 100 / (1 + g / l)
  | _, _ => 50

/-- Minimum of a list (pandas rolling min over a window; the windows fed
to this function are non-empty, the 0 default is never reached there). -/
def listMin (l : List ℚ) : ℚ :=
  match l with
  | [] => 0
  | h :: t => t.foldl min h

/-- Maximum of a list (pandas rolling max, same convention). -/
def listMax (l : List ℚ) : ℚ :=
  match l with
  | [] => 0
  | h :: t => t.foldl max h

/-- One step of ewm(span, adjust=False): the smoothed list is built in
reverse, each new value being a * x + (1 - a) * previous. -/
def emaStep (a : ℚ) (acc : List ℚ) (x : ℚ) : List ℚ :=
  match acc with
  | [] => [x]
  | y :: _ => (a * x + (1 - a) * y) :: acc

/-- pandas Series.ewm(span=span, adjust=False).mean() over a list, with
smoothing factor 2 / (span + 1). -/
def emaList (span : ℕ) (xs : List ℚ) : List ℚ :=
  (xs.foldl (emaStep (2 / ((span : ℚ) + 1))) []).reverse

/-- MACD_DIF column of _calculate_macd: EMA(close,12) - EMA(close,26). -/
def difList (closes : List ℚ) : List ℚ :=
  List.zipWith (fun a b => a - b) (emaList 12 closes) (emaList 26 closes)

/-- MACD_DEA column: EMA(DIF, 9). -/
def deaList (closes : List ℚ) : List ℚ :=
  emaList 9 (difList closes)

/-- MACD_BAR column: (DIF - DEA) * 2. -/
def macdBarList (closes : List ℚ) : List ℚ :=
  List.zipWith (fun a b => (a - b) * 2) (difList closes) (deaList closes)

/-- MA60 column of _calculate_mas: the true 60-bar rolling mean when at
least 60 bars exist, otherwise the MA20 column is substituted. -/
def ma60Col (closes : List ℚ) (i : ℕ) : Option ℚ :=
  if 60 ≤ closes.length then rollingMean closes 60 i else rollingMean closes 20 i

/-- MA250 column of _calculate_mas: the true 250-bar rolling mean when at
least 250 bars exist, otherwise the MA60 column is substituted. -/
def ma250Col (closes : List ℚ) (i : ℕ) : Option ℚ :=
  if 250 ≤ closes.length then rollingMean closes 250 i else ma60Col closes i

/-- Momentum column of _calculate_momentum (pct_change(p) * 100), NaN
until p bars of history exist. -/
def momentumCol (closes : List ℚ) (p i : ℕ) : Option ℚ :=
  if p ≤ i ∧ i < closes.length then
    some ((closes.getD i 0 / closes.getD (i - p) 0 - 1) * 100)
  else none

/-- RSV column of _calculate_kdj.  The rolling 9-bar min and max are NaN
for the first 8 indices, the zero denominator is replaced by NaN, and
rsv.fillna(50) maps every NaN to 50. -/
def rsvCol (df : List Bar) (i : ℕ) : ℚ :=
  match rollingWindow (df.map Bar.low) 9 i, rollingWindow (df.map Bar.high) 9 i with
  | some lows, some highs =>
      if listMax highs - listMin lows = 0 then 50
      else ((df.map Bar.close).getD i 0 - listMin lows) / (listMax highs - listMin lows) * 100
  | _, _ => 50

/-- RSV values as a list, index-aligned with the bars. -/
def rsvList (df : List Bar) : List ℚ :=
  (List.range df.length).map (rsvCol df)

/-- KDJ_K column: ewm(span=3, adjust=False) smoothing of RSV. -/
def kList (df : List Bar) : List ℚ := emaList 3 (rsvList df)

/-- KDJ_D column: ewm(span=3, adjust=False) smoothing of K. -/
def dList (df : List Bar) : List ℚ := emaList 3 (kList df)

/-- KDJ_J column: 3K - 2D. -/
def jList (df : List Bar) : List ℚ :=
  List.zipWith (fun k d => 3 * k - 2 * d) (kList df) (dList df)

/-- Sample variance with ddof 1, matching pandas rolling(20).std() before
the square root: sum of squared deviations from the mean divided by
(length - 1). -/
def sampleVar (l : List ℚ) : ℚ :=
  (l.map (fun x => (x - listMean l) ^ 2)).sum / ((l.length - 1 : ℕ) : ℚ)

/-- BB_MIDDLE column of _calculate_bollinger_bands: the 20-bar rolling
mean of close. -/
def bollMiddle (closes : List ℚ) (i : ℕ) : Option ℚ := rollingMean closes 20 i

/-- pandas rolling(20).std() at index i.  The square root of a rational
is in general irrational, so this column lives in the reals; it is the
one non-rational quantity of the whole module. -/
noncomputable def bollStd (closes : List ℚ) (i : ℕ) : Option ℝ :=
  (rollingWindow closes 20 i).map (fun l => Real.sqrt ((sampleVar l : ℚ) : ℝ))

/-- BB_UPPER column: middle + std * 2.0. -/
noncomputable def bollUpper (closes : List ℚ) (i : ℕ) : Option ℝ :=
  match bollMiddle closes i, bollStd closes i with
  | some m, some s => some ((m : ℝ) + s * 2)
  | _, _ => none

/-- BB_LOWER column: middle - std * 2.0. -/
noncomputable def bollLower (closes : List ℚ) (i : ℕ) : Option ℝ :=
  match bollMiddle closes i, bollStd closes i with
  | some m, some s => some ((m : ℝ) - s * 2)
  | _, _ => none

/-- Ascending sort of the bars by date, translating
df.sort_values(date).reset_index(drop=True). -/
def sortByDate (df : List Bar) : List Bar :=
  df.mergeSort (fun a b => a.date ≤ b.date)

/-- The TrendAnalysisResult dataclass with its field defaults. -/
structure TrendAnalysisResult where
  code : String
  trend_status : TrendStatus := .CONSOLIDATION
  ma_alignment : String := ""
  trend_strength : ℚ := 0
  ma5 : ℚ := 0
  ma10 : ℚ := 0
  ma20 : ℚ := 0
  ma60 : ℚ := 0
  ma250 : ℚ := 0
  current_price : ℚ := 0
  bias_ma5 : ℚ := 0
  bias_ma10 : ℚ := 0
  bias_ma20 : ℚ := 0
  bias_ma60 : ℚ := 0
  bias_ma250 : ℚ := 0
  volume_status : VolumeStatus := .NORMAL
  volume_ratio_5d : ℚ := 0
  volume_trend : String := ""
  support_ma5 : Bool := false
  support_ma10 : Bool := false
  resistance_levels : List ℚ := []
  support_levels : List ℚ := []
  macd_dif : ℚ := 0
  macd_dea : ℚ := 0
  macd_bar : ℚ := 0
  macd_status : MACDStatus := .BULLISH
  macd_signal : String := ""
  rsi_6 : ℚ := 0
  rsi_12 : ℚ := 0
  rsi_24 : ℚ := 0
  rsi_status : RSIStatus := .NEUTRAL
  rsi_signal : String := ""
  kdj_k : ℚ := 0
  kdj_d : ℚ := 0
  kdj_j : ℚ := 0
  kdj_signal : String := ""
  bb_upper : ℚ := 0
  bb_middle : ℚ := 0
  bb_lower : ℚ := 0
  bb_width : ℚ := 0
  bb_position : String := ""
  momentum_5d : ℚ := 0
  momentum_10d : ℚ := 0
  momentum_signal : String := ""
  vol_ma5 : ℚ := 0
  vol_ma10 : ℚ := 0
  vol_ma20 : ℚ := 0
  vol_ratio_ma5 : ℚ := 0
  vol_trend : String := ""
  buy_signal : BuySignal := .WAIT
  signal_score : ℤ := 0
  signal_reasons : List String := []
  risk_factors : List String := []

/-- TrendAnalysisResult(code=code): the freshly constructed result with
every field at its dataclass default. -/
def TrendAnalysisResult.mkDefault (code : String) : TrendAnalysisResult :=
  { code := code }

/-- Comparison of a possibly-NaN value with a rational: ps < b when the
value is present, False when it is NaN (Python comparison semantics). -/
def optLt (a : Option ℚ) (b : ℚ) : Bool :=
  match a with
  | some x => decide (x < b)
  | none => false

/-- Spread of the bullish case of _analyze_trend on the row at position
length - 5 (df.iloc[-5]; iloc[-1] when fewer than 5 rows exist):
(MA5 - MA20) / MA20 * 100 when MA20 > 0, else 0.  A NaN MA20 fails the
comparison with 0 in Python, so the else branch yields 0; a NaN MA5 with
a positive MA20 would propagate NaN (none), which cannot actually occur
since the 5-bar window is defined wherever the 20-bar one is. -/
def prevSpreadBull (df : List Bar) : Option ℚ :=
  let closes := df.map Bar.close
  let p := if 5 ≤ df.length then df.length - 5 else df.length - 1
  match rollingMean closes 20 p with
  | some m20 =>
      if 0 < m20 then
        match rollingMean closes 5 p with
        | some m5 => some ((m5 - m20) / m20 * 100)
        | none => none
      else some 0
  | none => some 0

/-- Spread of the bearish case of _analyze_trend on the row at position
length - 5: (MA20 - MA5) / MA5 * 100 when MA5 > 0, else 0; same NaN
conventions as the bullish spread. -/
def prevSpreadBear (df : List Bar) : Option ℚ :=
  let closes := df.map Bar.close
  let p := if 5 ≤ df.length then df.length - 5 else df.length - 1
  match rollingMean closes 5 p with
  | some m5 =>
      if 0 < m5 then
        match rollingMean closes 20 p with
        | some m20 => some ((m20 - m5) / m5 * 100)
        | none => none
      else some 0
  | none => some 0

/-- The _analyze_trend method: classifies the moving-average ordering of
the latest bar (already stored in the result) into one of the seven
trend states, promoting to the strong variant when the MA5-MA20 spread
is widening versus five bars earlier and exceeds 5 percent. -/
def analyzeTrend (df : List Bar) (r : TrendAnalysisResult) : TrendAnalysisResult :=
  if r.ma10 < r.ma5 ∧ r.ma20 < r.ma10 then
    let cs := if 0 < r.ma20 then (r.ma5 - r.ma20) / r.ma20 * 100 else 0
    if optLt (prevSpreadBull df) cs = true ∧ 5 < cs then
      { r with trend_status := .STRONG_BULL,
               ma_alignment := "强势多头排列，均线发散上行",
               trend_strength := 90 }
    else
      { r with trend_status := .BULL,
               ma_alignment := "多头排列 MA5>MA10>MA20",
               trend_strength := 75 }
  else if r.ma10 < r.ma5 ∧ r.ma10 ≤ r.ma20 then
    { r with trend_status := .WEAK_BULL,
             ma_alignment := "弱势多头，MA5>MA10 但 MA10≤MA20",
             trend_strength := 55 }
  else if r.ma5 < r.ma10 ∧ r.ma10 < r.ma20 then
    let cs := if 0 < r.ma5 then (r.ma20 - r.ma5) / r.ma5 * 100 else 0
    if optLt (prevSpreadBear df) cs = true ∧ 5 < cs then
      { r with trend_status := .STRONG_BEAR,
               ma_alignment := "强势空头排列，均线发散下行",
               trend_strength := 10 }
    else
      { r with trend_status := .BEAR,
               ma_alignment := "空头排列 MA5<MA10<MA20",
               trend_strength := 25 }
  else if r.ma5 < r.ma10 ∧ r.ma20 ≤ r.ma10 then
    { r with trend_status := .WEAK_BEAR,
             ma_alignment := "弱势空头，MA5<MA10 但 MA10≥MA20",
             trend_strength := 40 }
  else
    { r with trend_status := .CONSOLIDATION,
             ma_alignment := "均线缠绕，趋势不明",
             trend_strength := 50 }

/-- The _calculate_bias method: each bias is set only when the matching
moving average is positive, otherwise it stays at its 0 default. -/
def calcBias (r : TrendAnalysisResult) : TrendAnalysisResult :=
  let price := r.current_price
  let r1 := if 0 < r.ma5 then { r with bias_ma5 := (price - r.ma5) / r.ma5 * 100 } else r
  let r2 := if 0 < r1.ma10 then { r1 with bias_ma10 := (price - r1.ma10) / r1.ma10 * 100 } else r1
  let r3 := if 0 < r2.ma20 then { r2 with bias_ma20 := (price - r2.ma20) / r2.ma20 * 100 } else r2
  let r4 := if 0 < r3.ma60 then { r3 with bias_ma60 := (price - r3.ma60) / r3.ma60 * 100 } else r3
  if 0 < r4.ma250 then { r4 with bias_ma250 := (price - r4.ma250) / r4.ma250 * 100 } else r4

/-- The _analyze_volume method: ratio of the latest volume to the mean
of the 5 preceding volumes (df.volume.iloc[-6:-1]), then the regime
classification against the heavy (1.5) and shrink (0.7) thresholds
crossed with the sign of the day-over-day price change. -/
def analyzeVolume (df : List Bar) (r : TrendAnalysisResult) : TrendAnalysisResult :=
  if df.length < 5 then r
  else
    let n := df.length
    let vols := df.map Bar.volume
    let closes := df.map Bar.close
    let vol5avg := listMean ((vols.take (n - 1)).drop (n - 6))
    let r1 := if 0 < vol5avg then { r with volume_ratio_5d := vols.getD (n - 1) 0 / vol5avg }
              else r
    let prevClose := closes.getD (n - 2) 0
    let priceChange := (closes.getD (n - 1) 0 - prevClose) / prevClose * 100
    if (1.5 : ℚ) ≤ r1.volume_ratio_5d then
      if 0 < priceChange then
        { r1 with volume_status := .HEAVY_VOLUME_UP, volume_trend := "放量上涨，多头力量强劲" }
      else
        { r1 with volume_status := .HEAVY_VOLUME_DOWN, volume_trend := "放量下跌，注意风险" }
    else if r1.volume_ratio_5d ≤ (0.7 : ℚ) then
      if 0 < priceChange then
        { r1 with volume_status := .SHRINK_VOLUME_UP, volume_trend := "缩量上涨，上攻动能不足" }
      else
        { r1 with volume_status := .SHRINK_VOLUME_DOWN, volume_trend := "缩量回调，洗盘特征明显（好）" }
    else
      { r1 with volume_status := .NORMAL, volume_trend := "量能正常" }

/-- The _analyze_support_resistance method: MA5 and MA10 within 2 percent
below the price become supports (MA10 deduplicated against the list),
MA20 is added whenever the price is at or above it, and the 20-bar high
becomes a resistance when above the price. -/
def analyzeSupport (df : List Bar) (r : TrendAnalysisResult) : TrendAnalysisResult :=
  let price := r.current_price
  let r1 :=
    if 0 < r.ma5 ∧ |price - r.ma5| / r.ma5 ≤ (0.02 : ℚ) ∧ r.ma5 ≤ price then
      { r with support_ma5 := true, support_levels := r.support_levels ++ [r.ma5] }
    else r
  let r2 :=
    if 0 < r1.ma10 ∧ |price - r1.ma10| / r1.ma10 ≤ (0.02 : ℚ) ∧ r1.ma10 ≤ price then
      { r1 with support_ma10 := true,
                support_levels :=
                  if r1.ma10 ∈ r1.support_levels then r1.support_levels
                  else r1.support_levels ++ [r1.ma10] }
    else r1
  let r3 :=
    if 0 < r2.ma20 ∧ r2.ma20 ≤ price then
      { r2 with support_levels := r2.support_levels ++ [r2.ma20] }
    else r2
  if 20 ≤ df.length then
    let recentHigh := listMax ((df.map Bar.high).drop (df.length - 20))
    if price < recentHigh then
      { r3 with resistance_levels := r3.resistance_levels ++ [recentHigh] }
    else r3
  else r3

/-- MACD state classification of _analyze_macd from the DIF and DEA of
the previous and the latest bar, in the priority order of the source:
golden cross above zero, zero-axis crossing up, golden cross, death
cross, zero-axis crossing down, both positive (bullish), both negative
(bearish), and the catch-all branch, which also yields the BULLISH
variant with a neutral signal text. -/
def macdStatusOf (prevDif prevDea dif dea : ℚ) : MACDStatus × String :=
  if (prevDif - prevDea ≤ 0 ∧ 0 < dif - dea) ∧ 0 < dif then
    (.GOLDEN_CROSS_ZERO, "⭐ 零轴上金叉，强烈买入信号！")
  else if prevDif ≤ 0 ∧ 0 < dif then
    (.CROSSING_UP, "⚡ DIF上穿零轴，趋势转强")
  else if prevDif - prevDea ≤ 0 ∧ 0 < dif - dea then
    (.GOLDEN_CROSS, "✅ 金叉，趋势向上")
  else if 0 ≤ prevDif - prevDea ∧ dif - dea < 0 then
    (.DEATH_CROSS, "❌ 死叉，趋势向下")
  else if 0 ≤ prevDif ∧ dif < 0 then
    (.CROSSING_DOWN, "⚠️ DIF下穿零轴，趋势转弱")
  else if 0 < dif ∧ 0 < dea then
    (.BULLISH, "✓ 多头排列，持续上涨")
  else if dif < 0 ∧ dea < 0 then
    (.BEARISH, "⚠ 空头排列，持续下跌")
  else
    (.BULLISH, " MACD 中性区域")

/-- The _analyze_macd method: below 26 bars only the insufficient-data
text is set (the status keeps its BULLISH dataclass default); otherwise
the numeric fields are read off the latest bar and the state is
classified from the last two bars. -/
def analyzeMacd (df : List Bar) (r : TrendAnalysisResult) : TrendAnalysisResult :=
  if df.length < 26 then { r with macd_signal := "数据不足" }
  else
    let n := df.length
    let closes := df.map Bar.close
    let dif := (difList closes).getD (n - 1) 0
    let dea := (deaList closes).getD (n - 1) 0
    let bar := (macdBarList closes).getD (n - 1) 0
    let prevDif := (difList closes).getD (n - 2) 0
    let prevDea := (deaList closes).getD (n - 2) 0
    let st := macdStatusOf prevDif prevDea dif dea
    { r with macd_dif := dif, macd_dea := dea, macd_bar := bar,
             macd_status := st.1, macd_signal := st.2 }

/-- The _analyze_rsi method: below 24 bars only the insufficient-data
text is set; otherwise the three RSI horizons are read off the latest
bar and the zone is classified from the mid horizon RSI(12).  The
Python {value:.1f} string formatting is abstracted as toString. -/
def analyzeRsi (df : List Bar) (r : TrendAnalysisResult) : TrendAnalysisResult :=
  if df.length < 24 then { r with rsi_signal := "数据不足" }
  else
    let n := df.length
    let closes := df.map Bar.close
    let r6 := rsiCol closes 6 (n - 1)
    let r12 := rsiCol closes 12 (n - 1)
    let r24 := rsiCol closes 24 (n - 1)
    let r1 := { r with rsi_6 := r6, rsi_12 := r12, rsi_24 := r24 }
    if 70 < r12 then
      { r1 with rsi_status := .OVERBOUGHT,
                rsi_signal := "⚠️ RSI超买(" ++ toString r12 ++ ">70)，短期回调风险高" }
    else if 60 < r12 then
      { r1 with rsi_status := .STRONG_BUY,
                rsi_signal := "✅ RSI强势(" ++ toString r12 ++ ")，多头力量充足" }
    else if 40 ≤ r12 then
      { r1 with rsi_status := .NEUTRAL,
                rsi_signal := " RSI中性(" ++ toString r12 ++ ")，震荡整理中" }
    else if 30 ≤ r12 then
      { r1 with rsi_status := .WEAK,
                rsi_signal := "⚡ RSI弱势(" ++ toString r12 ++ ")，关注反弹" }
    else
      { r1 with rsi_status := .OVERSOLD,
                rsi_signal := "⭐ RSI超卖(" ++ toString r12 ++ "<30)，反弹机会大" }

/-- The _analyze_kdj method: below 9 bars only the insufficient-data
text is set; otherwise the K, D and J already stored in the result are
classified into a signal text. -/
def analyzeKdj (df : List Bar) (r : TrendAnalysisResult) : TrendAnalysisResult :=
  if df.length < 9 then { r with kdj_signal := "数据不足" }
  else
    let k := r.kdj_k
    let d := r.kdj_d
    let j := r.kdj_j
    if 80 < k ∧ 80 < d then
      { r with kdj_signal := "⚠️ KDJ超买(K:" ++ toString k ++ ", D:" ++ toString d ++ ")，短期回调风险" }
    else if k < 20 ∧ d < 20 then
      { r with kdj_signal := "⭐ KDJ超卖(K:" ++ toString k ++ ", D:" ++ toString d ++ ")，反弹机会" }
    else if d < k ∧ k < j then
      { r with kdj_signal := "✅ KDJ金叉(K:" ++ toString k ++ ">D:" ++ toString d ++ ")，趋势转强" }
    else if k < d ∧ j < k then
      { r with kdj_signal := "❌ KDJ死叉(K:" ++ toString k ++ "<D:" ++ toString d ++ ")，趋势转弱" }
    else
      { r with kdj_signal := " KDJ中性(K:" ++ toString k ++ ", D:" ++ toString d ++ ")" }

/-- The _analyze_bollinger_bands method: below 20 bars only the
insufficient-data text is set; otherwise the width is computed when both
outer bands are positive and the price position against the bands is
described. -/
def analyzeBollinger (df : List Bar) (r : TrendAnalysisResult) : TrendAnalysisResult :=
  if df.length < 20 then { r with bb_position := "数据不足" }
  else
    let price := r.current_price
    let r1 := if 0 < r.bb_upper ∧ 0 < r.bb_lower then
        { r with bb_width := (r.bb_upper - r.bb_lower) / r.bb_middle * 100 }
      else r
    if r1.bb_upper ≤ price then { r1 with bb_position := "上轨之上（超买区域）" }
    else if r1.bb_middle ≤ price then { r1 with bb_position := "中轨之上（多头区域）" }
    else if r1.bb_lower ≤ price then { r1 with bb_position := "中轨之下（空头区域）" }
    else { r1 with bb_position := "下轨之下（超卖区域）" }

/-- The _analyze_momentum method: below 10 bars only the
insufficient-data text is set; otherwise joint thresholds on the 5 and
10 day momentum values select one of five descriptive bands. -/
def analyzeMomentum (df : List Bar) (r : TrendAnalysisResult) : TrendAnalysisResult :=
  if df.length < 10 then { r with momentum_signal := "数据不足" }
  else
    let m5 := r.momentum_5d
    let m10 := r.momentum_10d
    if 3 < m5 ∧ 5 < m10 then
      { r with momentum_signal := "🚀 强势上涨(5日:" ++ toString m5 ++ "%, 10日:" ++ toString m10 ++ "%)" }
    else if 1 < m5 ∧ 2 < m10 then
      { r with momentum_signal := "📈 温和上涨(5日:" ++ toString m5 ++ "%, 10日:" ++ toString m10 ++ "%)" }
    else if m5 < -3 ∧ m10 < -5 then
      { r with momentum_signal := "📉 加速下跌(5日:" ++ toString m5 ++ "%, 10日:" ++ toString m10 ++ "%)" }
    else if m5 < -1 ∧ m10 < -2 then
      { r with momentum_signal := "⚠️ 温和下跌(5日:" ++ toString m5 ++ "%, 10日:" ++ toString m10 ++ "%)" }
    else
      { r with momentum_signal := "➡️ 震荡整理(5日:" ++ toString m5 ++ "%, 10日:" ++ toString m10 ++ "%)" }

/-- The _analyze_volume_ma method: below 20 bars only the
insufficient-data text is set; otherwise the volume ratio against the
5-day volume MA and the ordering of the three volume MAs are described. -/
def analyzeVolumeMa (df : List Bar) (r : TrendAnalysisResult) : TrendAnalysisResult :=
  if df.length < 20 then { r with vol_trend := "数据不足" }
  else
    let currentVol := (df.map Bar.volume).getD (df.length - 1) 0
    let r1 := if 0 < r.vol_ma5 then { r with vol_ratio_ma5 := currentVol / r.vol_ma5 } else r
    if r1.vol_ma10 < r1.vol_ma5 ∧ r1.vol_ma20 < r1.vol_ma10 then
      { r1 with vol_trend := "量均线多头排列，资金活跃" }
    else if r1.vol_ma5 < r1.vol_ma10 ∧ r1.vol_ma10 < r1.vol_ma20 then
      { r1 with vol_trend := "量均线空头排列，资金萎缩" }
    else if r1.vol_ma10 < r1.vol_ma5 then
      { r1 with vol_trend := "短期量能增强" }
    else
      { r1 with vol_trend := "量均线平衡" }

/-- Trend sub-score table of _generate_signal (trend_scores dict; every
variant is listed, so the .get default 12 is unreachable). -/
def trendScores : TrendStatus → ℤ
  | .STRONG_BULL => 30
  | .BULL => 26
  | .WEAK_BULL => 18
  | .CONSOLIDATION => 12
  | .WEAK_BEAR => 8
  | .BEAR => 4
  | .STRONG_BEAR => 0

/-- Volume sub-score table of _generate_signal (volume_scores dict; all
five variants listed, the .get default 8 is unreachable). -/
def volumeScores : VolumeStatus → ℤ
  | .SHRINK_VOLUME_DOWN => 15
  | .HEAVY_VOLUME_UP => 12
  | .NORMAL => 10
  | .SHRINK_VOLUME_UP => 6
  | .HEAVY_VOLUME_DOWN => 0

/-- MACD sub-score table of _generate_signal (macd_scores dict; all seven
variants listed, the .get default 5 is unreachable). -/
def macdScores : MACDStatus → ℤ
  | .GOLDEN_CROSS_ZERO => 15
  | .GOLDEN_CROSS => 12
  | .CROSSING_UP => 10
  | .BULLISH => 8
  | .BEARISH => 2
  | .CROSSING_DOWN => 0
  | .DEATH_CROSS => 0

/-- RSI sub-score table of _generate_signal (rsi_scores dict; all five
variants listed, the .get default 5 is unreachable). -/
def rsiScores : RSIStatus → ℤ
  | .OVERSOLD => 10
  | .STRONG_BUY => 8
  | .NEUTRAL => 5
  | .WEAK => 3
  | .OVERBOUGHT => 0

/-- Bias branch of _generate_signal: the sub-score together with the
reason and risk texts it appends (BIAS_THRESHOLD is 5.0). -/
def biasPiece (bias : ℚ) : ℤ × List String × List String :=
  if bias < 0 then
    if -3 < bias then
      (20, ["✅ 价格略低于MA5(" ++ toString bias ++ "%)，回踩买点"], [])
    else if -5 < bias then
      (16, ["✅ 价格回踩MA5(" ++ toString bias ++ "%)，观察支撑"], [])
    else
      (8, [], ["⚠️ 乖离率过大(" ++ toString bias ++ "%)，可能破位"])
  else if bias < 2 then
    (18, ["✅ 价格贴近MA5(" ++ toString bias ++ "%)，介入好时机"], [])
  else if bias < 5 then
    (14, ["⚡ 价格略高于MA5(" ++ toString bias ++ "%)，可小仓介入"], [])
  else
    (4, [], ["❌ 乖离率过高(" ++ toString bias ++ "%>5%)，严禁追高！"])

/-- The running total of _generate_signal: the six sub-scores in the
order the method accumulates them (trend, bias, volume, the two 5-point
support contributions, MACD, RSI). -/
def signalScoreOf (r : TrendAnalysisResult) : ℤ :=
  trendScores r.trend_status + (biasPiece r.bias_ma5).1 + volumeScores r.volume_status +
  (if r.support_ma5 then 5 else 0) + (if r.support_ma10 then 5 else 0) +
  macdScores r.macd_status + rsiScores r.rsi_status

/-- The _generate_signal method: the weighted score over the six
sub-score tables, the accumulated reason and risk texts in source order,
and the final buy signal from the score and trend state. -/
def generateSignal (r : TrendAnalysisResult) : TrendAnalysisResult :=
  let trendReasons : List String :=
    if r.trend_status = .STRONG_BULL ∨ r.trend_status = .BULL then
      ["✅ " ++ r.trend_status.value ++ "，顺势做多"]
    else []
  let trendRisks : List String :=
    if r.trend_status = .BEAR ∨ r.trend_status = .STRONG_BEAR then
      ["⚠️ " ++ r.trend_status.value ++ "，不宜做多"]
    else []
  let bp := biasPiece r.bias_ma5
  let volReasons : List String :=
    if r.volume_status = .SHRINK_VOLUME_DOWN then ["✅ 缩量回调，主力洗盘"] else []
  let volRisks : List String :=
    if r.volume_status = .HEAVY_VOLUME_DOWN then ["⚠️ 放量下跌，注意风险"] else []
  let supReasons : List String :=
    (if r.support_ma5 then ["✅ MA5支撑有效"] else []) ++
    (if r.support_ma10 then ["✅ MA10支撑有效"] else [])
  let macdReasons : List String :=
    if r.macd_status = .GOLDEN_CROSS_ZERO ∨ r.macd_status = .GOLDEN_CROSS then
      ["✅ " ++ r.macd_signal]
    else if r.macd_status = .DEATH_CROSS ∨ r.macd_status = .CROSSING_DOWN then []
    else [r.macd_signal]
  let macdRisks : List String :=
    if r.macd_status = .GOLDEN_CROSS_ZERO ∨ r.macd_status = .GOLDEN_CROSS then []
    else if r.macd_status = .DEATH_CROSS ∨ r.macd_status = .CROSSING_DOWN then
      ["⚠️ " ++ r.macd_signal]
    else []
  let rsiReasons : List String :=
    if r.rsi_status = .OVERSOLD ∨ r.rsi_status = .STRONG_BUY then
      ["✅ " ++ r.rsi_signal]
    else if r.rsi_status = .OVERBOUGHT then []
    else [r.rsi_signal]
  let rsiRisks : List String :=
    if r.rsi_status = .OVERSOLD ∨ r.rsi_status = .STRONG_BUY then []
    else if r.rsi_status = .OVERBOUGHT then ["⚠️ " ++ r.rsi_signal]
    else []
  let score : ℤ := signalScoreOf r
  let bs : BuySignal :=
    if 75 ≤ score ∧ (r.trend_status = .STRONG_BULL ∨ r.trend_status = .BULL) then
      .STRONG_BUY
    else if 60 ≤ score ∧
        (r.trend_status = .STRONG_BULL ∨ r.trend_status = .BULL ∨ r.trend_status = .WEAK_BULL) then
      .BUY
    else if 45 ≤ score then .HOLD
    else if 30 ≤ score then .WAIT
    else if r.trend_status = .BEAR ∨ r.trend_status = .STRONG_BEAR then .STRONG_SELL
    else .SELL
  { r with
    signal_score := score,
    signal_reasons :=
      trendReasons ++ bp.2.1 ++ volReasons ++ supReasons ++ macdReasons ++ rsiReasons,
    risk_factors := trendRisks ++ bp.2.2 ++ volRisks ++ macdRisks ++ rsiRisks,
    buy_signal := bs }

/-- Final-action cascade exactly as the specification sentence words it:
score at least 75 with a strong-bull or bull trend gives strong-buy;
otherwise score at least 60 with a strong-bull, bull or weak-bull trend
gives buy; otherwise at least 45 gives hold; otherwise at least 30 gives
wait; otherwise a bear or strong-bear trend gives strong-sell; otherwise
sell.  Written from the spec text, to be compared with the source-derived
generateSignal. -/
def cascadeSpec (score : ℤ) (trend : TrendStatus) : BuySignal :=
  if 75 ≤ score ∧ (trend = .STRONG_BULL ∨ trend = .BULL) then .STRONG_BUY
  else if 60 ≤ score ∧ (trend = .STRONG_BULL ∨ trend = .BULL ∨ trend = .WEAK_BULL) then .BUY
  else if 45 ≤ score then .HOLD
  else if 30 ≤ score then .WAIT
  else if trend = .BEAR ∨ trend = .STRONG_BEAR then .STRONG_SELL
  else .SELL

/-- BB_UPPER column of the pipeline, parameterised by the std column
(the real rolling standard deviation is irrational; the faithful real
band definitions are bollUpper and bollLower above). -/
def bbUpperCol (bbstd : List ℚ → ℕ → Option ℚ) (closes : List ℚ) (i : ℕ) : Option ℚ :=
  match rollingMean closes 20 i, bbstd closes i with
  | some m, some s => some (m + s * 2)
  | _, _ => none

/-- BB_LOWER column of the pipeline, parameterised like bbUpperCol. -/
def bbLowerCol (bbstd : List ℚ → ℕ → Option ℚ) (closes : List ℚ) (i : ℕ) : Option ℚ :=
  match rollingMean closes 20 i, bbstd closes i with
  | some m, some s => some (m - s * 2)
  | _, _ => none

/-- Steps 0 to 10 of analyze on a series of at least 20 bars: sort,
compute the indicator columns, read the latest values into the result
and run every classifier, in source order.  float(latest[col]) on a
column that is defined at the last index is rendered with getD 0. -/
def classifyAll (bbstd : List ℚ → ℕ → Option ℚ) (df0 : List Bar) (code : String) :
    TrendAnalysisResult :=
  let df := sortByDate df0
  let n := df.length
  let closes := df.map Bar.close
  let vols := df.map Bar.volume
  let r1 : TrendAnalysisResult :=
    { code := code,
      current_price := closes.getD (n - 1) 0,
      ma5 := (rollingMean closes 5 (n - 1)).getD 0,
      ma10 := (rollingMean closes 10 (n - 1)).getD 0,
      ma20 := (rollingMean closes 20 (n - 1)).getD 0,
      ma60 := (ma60Col closes (n - 1)).getD 0,
      ma250 := (ma250Col closes (n - 1)).getD 0 }
  let r2 := analyzeTrend df r1
  let r3 := calcBias r2
  let r4 := { r3 with
    kdj_k := (kList df).getD (n - 1) 0,
    kdj_d := (dList df).getD (n - 1) 0,
    kdj_j := (jList df).getD (n - 1) 0,
    bb_upper := (bbUpperCol bbstd closes (n - 1)).getD 0,
    bb_middle := (rollingMean closes 20 (n - 1)).getD 0,
    bb_lower := (bbLowerCol bbstd closes (n - 1)).getD 0,
    momentum_5d := (momentumCol closes 5 (n - 1)).getD 0,
    momentum_10d := (momentumCol closes 10 (n - 1)).getD 0,
    vol_ma5 := (rollingMean vols 5 (n - 1)).getD 0,
    vol_ma10 := (rollingMean vols 10 (n - 1)).getD 0,
    vol_ma20 := (rollingMean vols 20 (n - 1)).getD 0 }
  let r5 := analyzeVolume df r4
  let r6 := analyzeSupport df r5
  let r7 := analyzeMacd df r6
  let r8 := analyzeRsi df r7
  let r9 := analyzeKdj df r8
  let r10 := analyzeBollinger df r9
  let r11 := analyzeMomentum df r10
  analyzeVolumeMa df r11

/-- The analyze method on a non-None DataFrame: fewer than 20 bars
(which subsumes the empty frame) returns the degenerate result with the
single insufficient-data risk factor; otherwise the full pipeline runs
and _generate_signal produces the score and final action. -/
def analyzeList (bbstd : List ℚ → ℕ → Option ℚ) (df : List Bar) (code : String) :
    TrendAnalysisResult :=
  if df.length < 20 then
    { TrendAnalysisResult.mkDefault code with risk_factors := ["数据不足，无法完成分析"] }
  else
    generateSignal (classifyAll bbstd df code)

/-- The analyze method including the df-is-None guard. -/
def analyze (bbstd : List ℚ → ℕ → Option ℚ) (df : Option (List Bar)) (code : String) :
    TrendAnalysisResult :=
  match df with
  | none =>
      { TrendAnalysisResult.mkDefault code with risk_factors := ["数据不足，无法完成分析"] }
  | some l => analyzeList bbstd l code

/-- Values of the flat mapping returned by to_dict (Python dict values
are heterogeneous). -/
inductive PyVal where
  | s : String → PyVal
  | q : ℚ → PyVal
  | z : ℤ → PyVal
  | b : Bool → PyVal
  | sl : List String → PyVal
  deriving DecidableEq, Repr

/-- The to_dict method of TrendAnalysisResult: the flat mapping, with
the key-value pairs in exactly the order of the source. -/
def toDict (r : TrendAnalysisResult) : List (String × PyVal) :=
  [("code", .s r.code),
   ("trend_status", .s r.trend_status.value),
   ("ma_alignment", .s r.ma_alignment),
   ("trend_strength", .q r.trend_strength),
   ("ma5", .q r.ma5),
   ("ma10", .q r.ma10),
   ("ma20", .q r.ma20),
   ("ma60", .q r.ma60),
   ("current_price", .q r.current_price),
   ("bias_ma5", .q r.bias_ma5),
   ("bias_ma10", .q r.bias_ma10),
   ("bias_ma20", .q r.bias_ma20),
   ("volume_status", .s r.volume_status.value),
   ("volume_ratio_5d", .q r.volume_ratio_5d),
   ("volume_trend", .s r.volume_trend),
   ("support_ma5", .b r.support_ma5),
   ("support_ma10", .b r.support_ma10),
   ("buy_signal", .s r.buy_signal.value),
   ("signal_score", .z r.signal_score),
   ("signal_reasons", .sl r.signal_reasons),
   ("risk_factors", .sl r.risk_factors),
   ("macd_dif", .q r.macd_dif),
   ("macd_dea", .q r.macd_dea),
   ("macd_bar", .q r.macd_bar),
   ("macd_status", .s r.macd_status.value),
   ("macd_signal", .s r.macd_signal),
   ("rsi_6", .q r.rsi_6),
   ("rsi_12", .q r.rsi_12),
   ("rsi_24", .q r.rsi_24),
   ("rsi_status", .s r.rsi_status.value),
   ("rsi_signal", .s r.rsi_signal),
   ("ma250", .q r.ma250),
   ("bias_ma60", .q r.bias_ma60),
   ("bias_ma250", .q r.bias_ma250),
   ("kdj_k", .q r.kdj_k),
   ("kdj_d", .q r.kdj_d),
   ("kdj_j", .q r.kdj_j),
   ("kdj_signal", .s r.kdj_signal),
   ("bb_upper", .q r.bb_upper),
   ("bb_middle", .q r.bb_middle),
   ("bb_lower", .q r.bb_lower),
   ("bb_width", .q r.bb_width),
   ("bb_position", .s r.bb_position),
   ("momentum_5d", .q r.momentum_5d),
   ("momentum_10d", .q r.momentum_10d),
   ("momentum_signal", .s r.momentum_signal),
   ("vol_ma5", .q r.vol_ma5),
   ("vol_ma10", .q r.vol_ma10),
   ("vol_ma20", .q r.vol_ma20),
   ("vol_ratio_ma5", .q r.vol_ratio_ma5),
   ("vol_trend", .s r.vol_trend)]

/-- A pandas DataFrame object as the calculators see it: the OHLCV bars
plus the named indicator columns appended so far.  Used by the heap
model below, which tracks which DataFrame objects an analyze call
mutates. -/
structure ColFrame where
  bars : List Bar
  cols : List (String × List (Option ℚ))

instance : Inhabited ColFrame := ⟨⟨[], []⟩⟩

/-- Materialise a column function over the first n indices. -/
def colOf (f : ℕ → Option ℚ) (n : ℕ) : List (Option ℚ) :=
  (List.range n).map f

/-- df.sort_values(date).reset_index(drop=True), which returns a new
object with the bars reordered. -/
def sortF (fr : ColFrame) : ColFrame :=
  { fr with bars := sortByDate fr.bars }

/-- The column assignments of _calculate_mas on a frame. -/
def calcMasF (fr : ColFrame) : ColFrame :=
  let closes := fr.bars.map Bar.close
  let n := closes.length
  { fr with cols := fr.cols ++
      [("MA5", colOf (rollingMean closes 5) n),
       ("MA10", colOf (rollingMean closes 10) n),
       ("MA20", colOf (rollingMean closes 20) n),
       ("MA60", colOf (ma60Col closes) n),
       ("MA250", colOf (ma250Col closes) n)] }

/-- The column assignments of _calculate_macd on a frame. -/
def calcMacdF (fr : ColFrame) : ColFrame :=
  let closes := fr.bars.map Bar.close
  { fr with cols := fr.cols ++
      [("MACD_DIF", (difList closes).map some),
       ("MACD_DEA", (deaList closes).map some),
       ("MACD_BAR", (macdBarList closes).map some)] }

/-- The column assignments of _calculate_rsi on a frame. -/
def calcRsiF (fr : ColFrame) : ColFrame :=
  let closes := fr.bars.map Bar.close
  let n := closes.length
  { fr with cols := fr.cols ++
      [("RSI_6", colOf (fun i => some (rsiCol closes 6 i)) n),
       ("RSI_12", colOf (fun i => some (rsiCol closes 12 i)) n),
       ("RSI_24", colOf (fun i => some (rsiCol closes 24 i)) n)] }

/-- The column assignments of _calculate_kdj on a frame. -/
def calcKdjF (fr : ColFrame) : ColFrame :=
  { fr with cols := fr.cols ++
      [("KDJ_K", (kList fr.bars).map some),
       ("KDJ_D", (dList fr.bars).map some),
       ("KDJ_J", (jList fr.bars).map some)] }

/-- The column assignments of _calculate_bollinger_bands on a frame,
parameterised by the std column like the pipeline. -/
def calcBollF (bbstd : List ℚ → ℕ → Option ℚ) (fr : ColFrame) : ColFrame :=
  let closes := fr.bars.map Bar.close
  let n := closes.length
  { fr with cols := fr.cols ++
      [("BB_MIDDLE", colOf (rollingMean closes 20) n),
       ("BB_UPPER", colOf (bbUpperCol bbstd closes) n),
       ("BB_LOWER", colOf (bbLowerCol bbstd closes) n)] }

/-- The column assignments of _calculate_momentum on a frame. -/
def calcMomF (fr : ColFrame) : ColFrame :=
  let closes := fr.bars.map Bar.close
  let n := closes.length
  { fr with cols := fr.cols ++
      [("MOMENTUM_5D", colOf (momentumCol closes 5) n),
       ("MOMENTUM_10D", colOf (momentumCol closes 10) n)] }

/-- The column assignments of _calculate_volume_ma on a frame. -/
def calcVolMaF (fr : ColFrame) : ColFrame :=
  let vols := fr.bars.map Bar.volume
  let n := vols.length
  { fr with cols := fr.cols ++
      [("VOL_MA5", colOf (rollingMean vols 5) n),
       ("VOL_MA10", colOf (rollingMean vols 10) n),
       ("VOL_MA20", colOf (rollingMean vols 20) n)] }

/-- One calculator call against a heap of frame objects.  Every
calculator has the shape df = df.copy(); df[col] = ...; return df: the
copy allocates a fresh object at the end of the heap, the column
assignments mutate only that fresh object, and the returned reference
points at it.  sort_values likewise returns a new object. -/
def heapStep (g : ColFrame → ColFrame) (s : List ColFrame × ℕ) : List ColFrame × ℕ :=
  (s.1 ++ [g (s.1.getD s.2 default)], s.1.length)

/-- The DataFrame-object effects of analyze: with fewer than 20 bars no
frame operation runs at all; otherwise the sorted view and the seven
calculators each allocate a fresh frame, in source order, threading the
returned reference. -/
def analyzeHeap (bbstd : List ℚ → ℕ → Option ℚ) (s : List ColFrame × ℕ) :
    List ColFrame × ℕ :=
  if (s.1.getD s.2 default).bars.length < 20 then s
  else
    [sortF, calcMasF, calcMacdF, calcRsiF, calcKdjF, calcBollF bbstd, calcMomF,
     calcVolMaF].foldl (fun st g => heapStep g st) s

lemma gainAt_nonneg (closes : List ℚ) (i : ℕ) : 0 ≤ gainAt closes i := by
  unfold gainAt
  split_ifs with h1 h2 <;> linarith

lemma lossAt_nonneg (closes : List ℚ) (i : ℕ) : 0 ≤ lossAt closes i := by
  unfold lossAt
  split_ifs with h1 h2 <;> linarith

lemma gains_nonneg (closes : List ℚ) : ∀ x ∈ gains closes, 0 ≤ x := by
  intro x hx
  unfold gains at hx
  obtain ⟨j, _, rfl⟩ := List.mem_map.mp hx
  exact gainAt_nonneg closes j

lemma losses_nonneg (closes : List ℚ) : ∀ x ∈ losses closes, 0 ≤ x := by
  intro x hx
  unfold losses at hx
  obtain ⟨j, _, rfl⟩ := List.mem_map.mp hx
  exact lossAt_nonneg closes j

lemma mem_of_rollingWindow {xs : List ℚ} {w i : ℕ} {l : List ℚ}
    (h : rollingWindow xs w i = some l) : ∀ x ∈ l, x ∈ xs := by
  unfold rollingWindow at h
  split_ifs at h
  cases h
  intro x hx
  exact List.take_subset _ _ (List.drop_subset _ _ hx)

lemma listMean_nonneg {l : List ℚ} (h : ∀ x ∈ l, 0 ≤ x) : 0 ≤ listMean l := by
  unfold listMean
  exact div_nonneg (List.sum_nonneg h) (by positivity)

lemma rollingMean_nonneg {xs : List ℚ} (hxs : ∀ x ∈ xs, 0 ≤ x) {w i : ℕ} {m : ℚ}
    (h : rollingMean xs w i = some m) : 0 ≤ m := by
  unfold rollingMean at h
  cases hw : rollingWindow xs w i with
  | none => rw [hw] at h; cases h
  | some l =>
      rw [hw] at h
      cases h
      exact listMean_nonneg (fun x hx => hxs x (mem_of_rollingWindow hw x hx))

/-- C7: for every RSI horizon (in particular 6, 12 and 24) and every
input close series and index, the RSI column value lies in the closed
interval from 0 to 100: average gain and average loss are non-negative,
so when the average loss is positive the ratio is non-negative and
100 - 100 / (1 + RS) lies in that interval; a zero average loss yields
100 (positive gain) or the neutral fill value 50 (the 0/0 case), and
insufficient history also yields the fill value 50. -/
theorem C7_rsi_in_unit_range (closes : List ℚ) (period i : ℕ) :
    0 ≤ rsiCol closes period i ∧ rsiCol closes period i ≤ 100 := by
  unfold rsiCol
  cases hg : rollingMean (gains closes) period i with
  | none => exact ⟨by norm_num, by norm_num⟩
  | some g =>
      cases hl : rollingMean (losses closes) period i with
      | none => exact ⟨by norm_num, by norm_num⟩
      | some l =>
          have hg0 : 0 ≤ g := rollingMean_nonneg (gains_nonneg closes) hg
          have hl0 : 0 ≤ l := rollingMean_nonneg (losses_nonneg closes) hl
          by_cases hlz : l = 0
          · by_cases hgz : g = 0 <;> (simp [hlz, hgz]; try norm_num)
          · have hlpos : 0 < l := lt_of_le_of_ne hl0 (Ne.symm hlz)
            have hrs : 0 ≤ g / l := div_nonneg hg0 hl0
            have h1 : (0 : ℚ) < 1 + g / l := by linarith
            have h2 : 100 / (1 + g / l) ≤ 100 := div_le_self (by norm_num) (by linarith)
            have h3 : 0 < 100 / (1 + g / l) := div_pos (by norm_num) h1
            simp only [hlz, if_false]
            exact ⟨by linarith, by linarith⟩

lemma trendScores_bounds (t : TrendStatus) : 0 ≤ trendScores t ∧ trendScores t ≤ 30 := by
  cases t <;> decide

lemma volumeScores_bounds (v : VolumeStatus) : 0 ≤ volumeScores v ∧ volumeScores v ≤ 15 := by
  cases v <;> decide

lemma macdScores_bounds (m : MACDStatus) : 0 ≤ macdScores m ∧ macdScores m ≤ 15 := by
  cases m <;> decide

lemma rsiScores_bounds (s : RSIStatus) : 0 ≤ rsiScores s ∧ rsiScores s ≤ 10 := by
  cases s <;> decide

lemma biasPiece_bounds (b : ℚ) : 4 ≤ (biasPiece b).1 ∧ (biasPiece b).1 ≤ 20 := by
  unfold biasPiece
  split_ifs <;> exact ⟨by norm_num, by norm_num⟩

lemma signalScoreOf_bounds (r : TrendAnalysisResult) :
    4 ≤ signalScoreOf r ∧ signalScoreOf r ≤ 100 := by
  obtain ⟨t1, t2⟩ := trendScores_bounds r.trend_status
  obtain ⟨b1, b2⟩ := biasPiece_bounds r.bias_ma5
  obtain ⟨v1, v2⟩ := volumeScores_bounds r.volume_status
  obtain ⟨m1, m2⟩ := macdScores_bounds r.macd_status
  obtain ⟨s1, s2⟩ := rsiScores_bounds r.rsi_status
  unfold signalScoreOf
  constructor <;> split_ifs <;> linarith

lemma generateSignal_signal_score (r : TrendAnalysisResult) :
    (generateSignal r).signal_score = signalScoreOf r := rfl

lemma generateSignal_trend_status (r : TrendAnalysisResult) :
    (generateSignal r).trend_status = r.trend_status := rfl

lemma generateSignal_buy_signal (r : TrendAnalysisResult) :
    (generateSignal r).buy_signal = cascadeSpec (signalScoreOf r) r.trend_status := rfl

lemma buySignal_mem (b : BuySignal) :
    b = .STRONG_BUY ∨ b = .BUY ∨ b = .HOLD ∨ b = .WAIT ∨ b = .SELL ∨ b = .STRONG_SELL := by
  cases b <;> decide

lemma analyzeList_score_short (bbstd : List ℚ → ℕ → Option ℚ) (df : List Bar) (code : String)
    (h : df.length < 20) : (analyzeList bbstd df code).signal_score = 0 := by
  unfold analyzeList
  rw [if_pos h]
  rfl

lemma analyzeList_long (bbstd : List ℚ → ℕ → Option ℚ) (df : List Bar) (code : String)
    (h : ¬ df.length < 20) :
    analyzeList bbstd df code = generateSignal (classifyAll bbstd df code) := by
  unfold analyzeList
  rw [if_neg h]

/-- C1: for every input frame (or None), the analyze result has a
signal score between 0 and 100 and a buy signal that is one of the six
fixed variants; the six sub-score tables (trend up to 30, bias up to 20,
volume up to 15, support up to 10, MACD up to 15, RSI up to 10, each
non-negative) can never put the total above 100 or below 0. -/
theorem C1_score_in_range_action_enumerated (bbstd : List ℚ → ℕ → Option ℚ)
    (df : Option (List Bar)) (code : String) :
    0 ≤ (analyze bbstd df code).signal_score ∧
    (analyze bbstd df code).signal_score ≤ 100 ∧
    ((analyze bbstd df code).buy_signal = .STRONG_BUY ∨
     (analyze bbstd df code).buy_signal = .BUY ∨
     (analyze bbstd df code).buy_signal = .HOLD ∨
     (analyze bbstd df code).buy_signal = .WAIT ∨
     (analyze bbstd df code).buy_signal = .SELL ∨
     (analyze bbstd df code).buy_signal = .STRONG_SELL) := by
  have hscore : 0 ≤ (analyze bbstd df code).signal_score ∧
      (analyze bbstd df code).signal_score ≤ 100 := by
    cases df with
    | none =>
        have h0 : (analyze bbstd none code).signal_score = 0 := rfl
        rw [h0]
        norm_num
    | some l =>
        by_cases h : l.length < 20
        · have h0 : (analyze bbstd (some l) code).signal_score = 0 :=
            analyzeList_score_short bbstd l code h
          rw [h0]
          norm_num
        · have he : analyze bbstd (some l) code = generateSignal (classifyAll bbstd l code) :=
            analyzeList_long bbstd l code h
          rw [he, generateSignal_signal_score]
          have hb := signalScoreOf_bounds (classifyAll bbstd l code)
          exact ⟨by linarith [hb.1], hb.2⟩
  exact ⟨hscore.1, hscore.2, buySignal_mem _⟩

/-- C10 (implicit): on the non-degenerate path the bias sub-score is at
least 4 and every other sub-score is at least 0, so the signal score is
at least 4; hence an analyze result has signal score 0 exactly when the
input series had fewer than 20 bars. -/
theorem C10_zero_score_iff_insufficient (bbstd : List ℚ → ℕ → Option ℚ)
    (df : List Bar) (code : String) :
    (20 ≤ df.length → 4 ≤ (analyzeList bbstd df code).signal_score) ∧
    ((analyzeList bbstd df code).signal_score = 0 ↔ df.length < 20) := by
  by_cases h : df.length < 20
  · have h0 := analyzeList_score_short bbstd df code h
    exact ⟨fun h20 => absurd h (by omega), by rw [h0]; exact ⟨fun _ => h, fun _ => rfl⟩⟩
  · have he := analyzeList_long bbstd df code h
    have hb := signalScoreOf_bounds (classifyAll bbstd df code)
    rw [he, generateSignal_signal_score]
    refine ⟨fun _ => hb.1, ⟨fun h0 => absurd h0 (by omega), fun hlt => absurd hlt h⟩⟩

/-- C10 witness: a concrete 20-bar series is on the non-degenerate path
and scores at least 4; the empty series scores exactly 0. -/
theorem C10_zero_score_iff_insufficient_witness :
    (20 ≤ (List.replicate 20 (⟨0, 1, 1, 1, 1, 1⟩ : Bar)).length ∧
     4 ≤ (analyzeList (fun _ _ => none)
        (List.replicate 20 (⟨0, 1, 1, 1, 1, 1⟩ : Bar)) "W").signal_score) ∧
    ((analyzeList (fun _ _ => none) ([] : List Bar) "W").signal_score = 0 ↔
      ([] : List Bar).length < 20) :=
  ⟨⟨by decide,
    (C10_zero_score_iff_insufficient (fun _ _ => none)
      (List.replicate 20 (⟨0, 1, 1, 1, 1, 1⟩ : Bar)) "W").1 (by decide)⟩,
   (C10_zero_score_iff_insufficient (fun _ _ => none) ([] : List Bar) "W").2⟩

/-- C4: on every analyzed series that reaches signal generation (at
least 20 bars), the final buy signal is derived from the signal score
and the trend status by exactly the spec cascade: at least 75 with
strong-bull or bull gives strong-buy, else at least 60 with strong-bull,
bull or weak-bull gives buy, else at least 45 gives hold, else at least
30 gives wait, else bear or strong-bear gives strong-sell, else sell. -/
theorem C4_buy_signal_cascade (bbstd : List ℚ → ℕ → Option ℚ)
    (df : List Bar) (code : String) (h : 20 ≤ df.length) :
    (analyzeList bbstd df code).buy_signal =
      cascadeSpec (analyzeList bbstd df code).signal_score
        (analyzeList bbstd df code).trend_status := by
  have he := analyzeList_long bbstd df code (by omega)
  rw [he, generateSignal_signal_score, generateSignal_trend_status]
  exact generateSignal_buy_signal (classifyAll bbstd df code)

/-- C4 witness: a concrete 20-bar series satisfies the hypothesis and
the cascade equation. -/
theorem C4_buy_signal_cascade_witness :
    20 ≤ (List.replicate 20 (⟨0, 1, 1, 1, 1, 1⟩ : Bar)).length ∧
    (analyzeList (fun _ _ => none) (List.replicate 20 (⟨0, 1, 1, 1, 1, 1⟩ : Bar)) "W").buy_signal =
      cascadeSpec
        (analyzeList (fun _ _ => none) (List.replicate 20 (⟨0, 1, 1, 1, 1, 1⟩ : Bar)) "W").signal_score
        (analyzeList (fun _ _ => none) (List.replicate 20 (⟨0, 1, 1, 1, 1, 1⟩ : Bar)) "W").trend_status :=
  ⟨by decide, C4_buy_signal_cascade (fun _ _ => none) (List.replicate 20 ⟨0, 1, 1, 1, 1, 1⟩) "W" (by decide)⟩

/-- C3: a None input or a series of fewer than 20 bars produces the
degenerate result: exactly one risk factor (the insufficient-data
message), signal score 0, and every other field at its dataclass
default; no exception is possible (the embedding is a total function,
as is the Python path, which only constructs, appends and returns). -/
theorem C3_degenerate_result (bbstd : List ℚ → ℕ → Option ℚ)
    (df : Option (List Bar)) (code : String)
    (h : df = none ∨ ∃ l, df = some l ∧ l.length < 20) :
    (analyze bbstd df code).risk_factors = ["数据不足，无法完成分析"] ∧
    (analyze bbstd df code).risk_factors.length = 1 ∧
    (analyze bbstd df code).signal_score = 0 ∧
    (analyze bbstd df code).trend_status = .CONSOLIDATION ∧
    (analyze bbstd df code).volume_status = .NORMAL ∧
    (analyze bbstd df code).macd_status = .BULLISH ∧
    (analyze bbstd df code).rsi_status = .NEUTRAL ∧
    (analyze bbstd df code).buy_signal = .WAIT ∧
    (analyze bbstd df code).code = code ∧
    (analyze bbstd df code).ma_alignment = "" ∧
    (analyze bbstd df code).trend_strength = 0 ∧
    (analyze bbstd df code).ma5 = 0 ∧
    (analyze bbstd df code).ma10 = 0 ∧
    (analyze bbstd df code).ma20 = 0 ∧
    (analyze bbstd df code).ma60 = 0 ∧
    (analyze bbstd df code).ma250 = 0 ∧
    (analyze bbstd df code).current_price = 0 ∧
    (analyze bbstd df code).bias_ma5 = 0 ∧
    (analyze bbstd df code).bias_ma10 = 0 ∧
    (analyze bbstd df code).bias_ma20 = 0 ∧
    (analyze bbstd df code).bias_ma60 = 0 ∧
    (analyze bbstd df code).bias_ma250 = 0 ∧
    (analyze bbstd df code).volume_ratio_5d = 0 ∧
    (analyze bbstd df code).volume_trend = "" ∧
    (analyze bbstd df code).support_ma5 = false ∧
    (analyze bbstd df code).support_ma10 = false ∧
    (analyze bbstd df code).resistance_levels = [] ∧
    (analyze bbstd df code).support_levels = [] ∧
    (analyze bbstd df code).macd_dif = 0 ∧
    (analyze bbstd df code).macd_dea = 0 ∧
    (analyze bbstd df code).macd_bar = 0 ∧
    (analyze bbstd df code).macd_signal = "" ∧
    (analyze bbstd df code).rsi_6 = 0 ∧
    (analyze bbstd df code).rsi_12 = 0 ∧
    (analyze bbstd df code).rsi_24 = 0 ∧
    (analyze bbstd df code).rsi_signal = "" ∧
    (analyze bbstd df code).kdj_k = 0 ∧
    (analyze bbstd df code).kdj_d = 0 ∧
    (analyze bbstd df code).kdj_j = 0 ∧
    (analyze bbstd df code).kdj_signal = "" ∧
    (analyze bbstd df code).bb_upper = 0 ∧
    (analyze bbstd df code).bb_middle = 0 ∧
    (analyze bbstd df code).bb_lower = 0 ∧
    (analyze bbstd df code).bb_width = 0 ∧
    (analyze bbstd df code).bb_position = "" ∧
    (analyze bbstd df code).momentum_5d = 0 ∧
    (analyze bbstd df code).momentum_10d = 0 ∧
    (analyze bbstd df code).momentum_signal = "" ∧
    (analyze bbstd df code).vol_ma5 = 0 ∧
    (analyze bbstd df code).vol_ma10 = 0 ∧
    (analyze bbstd df code).vol_ma20 = 0 ∧
    (analyze bbstd df code).vol_ratio_ma5 = 0 ∧
    (analyze bbstd df code).vol_trend = "" ∧
    (analyze bbstd df code).signal_reasons = [] := by
  have heq : analyze bbstd df code =
      { TrendAnalysisResult.mkDefault code with risk_factors := ["数据不足，无法完成分析"] } := by
    rcases h with h | ⟨l, hdf, hl⟩
    · subst h; rfl
    · subst hdf
      show analyzeList bbstd l code = _
      unfold analyzeList
      rw [if_pos hl]
  rw [heq]
  exact ⟨rfl, rfl, rfl, rfl, rfl, rfl, rfl, rfl, rfl, rfl, rfl, rfl, rfl, rfl, rfl, rfl, rfl,
    rfl, rfl, rfl, rfl, rfl, rfl, rfl, rfl, rfl, rfl, rfl, rfl, rfl, rfl, rfl, rfl, rfl, rfl,
    rfl, rfl, rfl, rfl, rfl, rfl, rfl, rfl, rfl, rfl, rfl, rfl, rfl, rfl, rfl, rfl, rfl, rfl,
    rfl⟩

/-- C3 witness: the None input satisfies the hypothesis; the result
carries exactly the one risk factor and score 0. -/
theorem C3_degenerate_result_witness :
    ((none : Option (List Bar)) = none ∨
      ∃ l, (none : Option (List Bar)) = some l ∧ l.length < 20) ∧
    (analyze (fun _ _ => none) none "X").risk_factors = ["数据不足，无法完成分析"] ∧
    (analyze (fun _ _ => none) none "X").signal_score = 0 :=
  ⟨Or.inl rfl,
   (C3_degenerate_result (fun _ _ => none) none "X" (Or.inl rfl)).1,
   (C3_degenerate_result (fun _ _ => none) none "X" (Or.inl rfl)).2.2.1⟩

/-- C2 counterexample: the flat mapping of a concrete result contains no
key for the support-levels list and none for the resistance-levels list,
so the key set does not include every field of the data model. -/
theorem C2_no_level_keys_counterexample :
    ¬ ("support_levels" ∈ (toDict (TrendAnalysisResult.mkDefault "X")).map Prod.fst ∧
       "resistance_levels" ∈ (toDict (TrendAnalysisResult.mkDefault "X")).map Prod.fst) := by
  decide

/-- C2 (amended): the key set of to_dict is fixed at the 51 keys below,
independent of the result: it covers every scalar, classification and
signal-text field plus the reason and risk lists, but holds no key for
the support_levels or resistance_levels lists, which to_dict omits. -/
theorem C2_amended_key_set (r : TrendAnalysisResult) :
    (toDict r).map Prod.fst =
      ["code", "trend_status", "ma_alignment", "trend_strength", "ma5", "ma10", "ma20", "ma60",
       "current_price", "bias_ma5", "bias_ma10", "bias_ma20", "volume_status", "volume_ratio_5d",
       "volume_trend", "support_ma5", "support_ma10", "buy_signal", "signal_score",
       "signal_reasons", "risk_factors", "macd_dif", "macd_dea", "macd_bar", "macd_status",
       "macd_signal", "rsi_6", "rsi_12", "rsi_24", "rsi_status", "rsi_signal", "ma250",
       "bias_ma60", "bias_ma250", "kdj_k", "kdj_d", "kdj_j", "kdj_signal", "bb_upper",
       "bb_middle", "bb_lower", "bb_width", "bb_position", "momentum_5d", "momentum_10d",
       "momentum_signal", "vol_ma5", "vol_ma10", "vol_ma20", "vol_ratio_ma5", "vol_trend"] ∧
    "support_levels" ∉ (toDict r).map Prod.fst ∧
    "resistance_levels" ∉ (toDict r).map Prod.fst := by
  have hk : (toDict r).map Prod.fst =
      ["code", "trend_status", "ma_alignment", "trend_strength", "ma5", "ma10", "ma20", "ma60",
       "current_price", "bias_ma5", "bias_ma10", "bias_ma20", "volume_status", "volume_ratio_5d",
       "volume_trend", "support_ma5", "support_ma10", "buy_signal", "signal_score",
       "signal_reasons", "risk_factors", "macd_dif", "macd_dea", "macd_bar", "macd_status",
       "macd_signal", "rsi_6", "rsi_12", "rsi_24", "rsi_status", "rsi_signal", "ma250",
       "bias_ma60", "bias_ma250", "kdj_k", "kdj_d", "kdj_j", "kdj_signal", "bb_upper",
       "bb_middle", "bb_lower", "bb_width", "bb_position", "momentum_5d", "momentum_10d",
       "momentum_signal", "vol_ma5", "vol_ma10", "vol_ma20", "vol_ratio_ma5", "vol_trend"] := rfl
  refine ⟨hk, ?_, ?_⟩ <;> rw [hk] <;> decide

/-- C9 (implicit): when the latest DIF and DEA have opposite signs and
no golden cross, death cross or zero-axis crossing is detected, the
classifier falls into its catch-all branch: the stored status is the
BULLISH enum variant (there is no distinct neutral variant) while the
signal text reads neutral, and the MACD sub-score table therefore awards
this neutral configuration the same 8 points as a genuine bullish
state. -/
theorem C9_neutral_macd_scored_as_bullish (prevDif prevDea dif dea : ℚ)
    (hopp : (0 < dif ∧ dea < 0) ∨ (dif < 0 ∧ 0 < dea))
    (hng : ¬ (prevDif - prevDea ≤ 0 ∧ 0 < dif - dea))
    (hnd : ¬ (0 ≤ prevDif - prevDea ∧ dif - dea < 0))
    (hnu : ¬ (prevDif ≤ 0 ∧ 0 < dif))
    (hnc : ¬ (0 ≤ prevDif ∧ dif < 0)) :
    macdStatusOf prevDif prevDea dif dea = (MACDStatus.BULLISH, " MACD 中性区域") ∧
    macdScores (macdStatusOf prevDif prevDea dif dea).1 = 8 ∧
    macdScores MACDStatus.BULLISH = 8 := by
  have h6 : ¬ (0 < dif ∧ 0 < dea) := by
    rcases hopp with ⟨_, hd⟩ | ⟨hd, _⟩ <;> (intro hc; obtain ⟨hc1, hc2⟩ := hc; linarith)
  have h7 : ¬ (dif < 0 ∧ dea < 0) := by
    rcases hopp with ⟨hd, _⟩ | ⟨_, hd⟩ <;> (intro hc; obtain ⟨hc1, hc2⟩ := hc; linarith)
  unfold macdStatusOf
  rw [if_neg (fun hc => hng hc.1), if_neg hnu, if_neg hng, if_neg hnd, if_neg hnc,
      if_neg h6, if_neg h7]
  exact ⟨rfl, rfl, rfl⟩

/-- C9 witness: DIF 1 and DEA -1 with previous DIF 2 and DEA 1 satisfy
the opposite-sign, no-cross hypotheses and land in the neutral catch-all
with status BULLISH. -/
theorem C9_neutral_macd_scored_as_bullish_witness :
    (((0:ℚ) < 1 ∧ (-1:ℚ) < 0) ∨ ((1:ℚ) < 0 ∧ (0:ℚ) < -1)) ∧
    macdStatusOf 2 1 1 (-1) = (MACDStatus.BULLISH, " MACD 中性区域") :=
  ⟨Or.inl ⟨by norm_num, by norm_num⟩,
   (C9_neutral_macd_scored_as_bullish 2 1 1 (-1)
     (Or.inl ⟨by norm_num, by norm_num⟩)
     (by intro hc; norm_num at hc)
     (by intro hc; norm_num at hc)
     (by intro hc; norm_num at hc)
     (by intro hc; norm_num at hc)).1⟩

/-- C5: under the bullish alignment MA5 > MA10 > MA20 (with a positive
MA20, as for real prices) the classifier yields STRONG_BULL exactly when
the current MA5-MA20 percentage spread exceeds the same spread on the
row df.iloc[-5] (position length - 5) and exceeds 5 percent, and BULL
otherwise; mirrored for MA5 < MA10 < MA20 with STRONG_BEAR versus BEAR
on the inverted spread. -/
theorem C5_strong_variant_promotion (df : List Bar) (r : TrendAnalysisResult) :
    (r.ma10 < r.ma5 → r.ma20 < r.ma10 → 0 < r.ma20 →
      (analyzeTrend df r).trend_status =
        (if optLt (prevSpreadBull df) ((r.ma5 - r.ma20) / r.ma20 * 100) = true ∧
            5 < (r.ma5 - r.ma20) / r.ma20 * 100
         then TrendStatus.STRONG_BULL else TrendStatus.BULL)) ∧
    (r.ma5 < r.ma10 → r.ma10 < r.ma20 → 0 < r.ma5 →
      (analyzeTrend df r).trend_status =
        (if optLt (prevSpreadBear df) ((r.ma20 - r.ma5) / r.ma5 * 100) = true ∧
            5 < (r.ma20 - r.ma5) / r.ma5 * 100
         then TrendStatus.STRONG_BEAR else TrendStatus.BEAR)) := by
  constructor
  · intro h1 h2 h3
    unfold analyzeTrend
    rw [if_pos ⟨h1, h2⟩]
    dsimp only
    rw [if_pos h3]
    split_ifs <;> rfl
  · intro h1 h2 h3
    unfold analyzeTrend
    rw [if_neg (by intro hc; exact absurd hc.1 (by linarith))]
    rw [if_neg (by intro hc; exact absurd hc.1 (by linarith))]
    rw [if_pos ⟨h1, h2⟩]
    dsimp only
    rw [if_pos h3]
    split_ifs <;> rfl

/-- C5 witness: on a frame whose MA columns are all undefined (so the
spread five bars earlier evaluates to the 0 else-branch), latest
MA5 = 12, MA10 = 11, MA20 = 10 gives a current spread of 20 percent,
widening and above 5, so the classifier promotes to STRONG_BULL. -/
theorem C5_strong_variant_promotion_witness :
    ((11:ℚ) < 12 ∧ (10:ℚ) < 11 ∧ (0:ℚ) < 10) ∧
    (analyzeTrend ([] : List Bar)
        { code := "W", ma5 := 12, ma10 := 11, ma20 := 10 }).trend_status =
      TrendStatus.STRONG_BULL := by
  refine ⟨⟨by norm_num, by norm_num, by norm_num⟩, ?_⟩
  have h := (C5_strong_variant_promotion ([] : List Bar)
    { code := "W", ma5 := 12, ma10 := 11, ma20 := 10 }).1
    (by norm_num) (by norm_num) (by norm_num)
  rw [h]
  have hp : prevSpreadBull ([] : List Bar) = some 0 := rfl
  rw [if_pos ?_]
  constructor
  · rw [hp]
    simp only [optLt, decide_eq_true_eq]
    norm_num
  · norm_num

/-- C6: wherever a full 20 bars of history exist, the Bollinger columns
are defined and ordered, lower ≤ middle ≤ upper, because the band offset
is the non-negative multiple 2.0 of a non-negative standard deviation
added to and subtracted from the middle line. -/
theorem C6_bollinger_bands_ordered (closes : List ℚ) (i : ℕ)
    (h1 : 19 ≤ i) (h2 : i < closes.length) :
    ∃ lo mid up, bollLower closes i = some lo ∧ bollMiddle closes i = some mid ∧
      bollUpper closes i = some up ∧ lo ≤ (mid : ℝ) ∧ (mid : ℝ) ≤ up := by
  have hw : rollingWindow closes 20 i = some ((closes.take (i + 1)).drop (i + 1 - 20)) := by
    unfold rollingWindow
    rw [if_pos ⟨by omega, h2⟩]
  have hm : bollMiddle closes i = some (listMean ((closes.take (i + 1)).drop (i + 1 - 20))) := by
    unfold bollMiddle rollingMean
    rw [hw]
    rfl
  have hstd : bollStd closes i =
      some (Real.sqrt ((sampleVar ((closes.take (i + 1)).drop (i + 1 - 20)) : ℚ) : ℝ)) := by
    unfold bollStd
    rw [hw]
    rfl
  have hs : 0 ≤ Real.sqrt ((sampleVar ((closes.take (i + 1)).drop (i + 1 - 20)) : ℚ) : ℝ) :=
    Real.sqrt_nonneg _
  have hu : bollUpper closes i =
      some ((listMean ((closes.take (i + 1)).drop (i + 1 - 20)) : ℝ) +
        Real.sqrt ((sampleVar ((closes.take (i + 1)).drop (i + 1 - 20)) : ℚ) : ℝ) * 2) := by
    unfold bollUpper
    rw [hm, hstd]
  have hl : bollLower closes i =
      some ((listMean ((closes.take (i + 1)).drop (i + 1 - 20)) : ℝ) -
        Real.sqrt ((sampleVar ((closes.take (i + 1)).drop (i + 1 - 20)) : ℚ) : ℝ) * 2) := by
    unfold bollLower
    rw [hm, hstd]
  exact ⟨_, _, _, hl, hm, hu, by linarith, by linarith⟩

/-- C6 witness: a 20-element close series at its last index has ordered
bands. -/
theorem C6_bollinger_bands_ordered_witness :
    (19 ≤ 19 ∧ 19 < (List.replicate 20 (1 : ℚ)).length) ∧
    ∃ lo mid up, bollLower (List.replicate 20 (1 : ℚ)) 19 = some lo ∧
      bollMiddle (List.replicate 20 (1 : ℚ)) 19 = some mid ∧
      bollUpper (List.replicate 20 (1 : ℚ)) 19 = some up ∧ lo ≤ (mid : ℝ) ∧ (mid : ℝ) ≤ up :=
  ⟨⟨by norm_num, by decide⟩,
   C6_bollinger_bands_ordered (List.replicate 20 (1 : ℚ)) 19 (by norm_num) (by decide)⟩

lemma heapStep_get (g : ColFrame → ColFrame) (s : List ColFrame × ℕ) (i : ℕ)
    (h : i < s.1.length) : (heapStep g s).1[i]? = s.1[i]? := by
  unfold heapStep
  exact List.getElem?_append_left h

lemma heapStep_len (g : ColFrame → ColFrame) (s : List ColFrame × ℕ) :
    s.1.length ≤ (heapStep g s).1.length := by
  unfold heapStep
  rw [List.length_append]
  omega

lemma foldl_heapStep_get (gs : List (ColFrame → ColFrame)) (s : List ColFrame × ℕ) (i : ℕ)
    (h : i < s.1.length) :
    ((gs.foldl (fun st g => heapStep g st) s).1)[i]? = s.1[i]? ∧
    s.1.length ≤ (gs.foldl (fun st g => heapStep g st) s).1.length := by
  induction gs generalizing s with
  | nil => exact ⟨rfl, le_refl _⟩
  | cons g gs ih =>
      have hl := heapStep_len g s
      have hi : i < (heapStep g s).1.length := lt_of_lt_of_le h hl
      obtain ⟨e, le⟩ := ih (heapStep g s) hi
      constructor
      · rw [List.foldl_cons, e, heapStep_get g s i h]
      · rw [List.foldl_cons]
        exact le_trans hl le

/-- C8: analyze never mutates the DataFrame supplied by the caller: the
sorted view and every calculator copy their input and mutate only the
fresh copy, so every frame object that existed on the heap before the
call, in particular the caller's frame, is unchanged afterwards and
still holds exactly its original columns and values. -/
theorem C8_analyze_never_mutates_input (bbstd : List ℚ → ℕ → Option ℚ)
    (s : List ColFrame × ℕ) (i : ℕ) (h : i < s.1.length) :
    ((analyzeHeap bbstd s).1)[i]? = s.1[i]? := by
  unfold analyzeHeap
  split_ifs
  · rfl
  · exact (foldl_heapStep_get _ s i h).1

/-- C8 witness: a heap holding one empty frame keeps that frame intact
through an analyze call. -/
theorem C8_analyze_never_mutates_input_witness :
    0 < ([(⟨[], []⟩ : ColFrame)], 0).1.length ∧
    ((analyzeHeap (fun _ _ => none) ([(⟨[], []⟩ : ColFrame)], 0)).1)[0]? =
      ([(⟨[], []⟩ : ColFrame)], 0).1[0]? :=
  ⟨Nat.zero_lt_one,
   C8_analyze_never_mutates_input (fun _ _ => none) ([⟨[], []⟩], 0) 0 Nat.zero_lt_one⟩

end StockAnalyzer
